import Mathlib

/-
Verification of the HTTP client of the socialdash/users service
(src/http/client.rs): the dispatcher-side classification of transport
outcomes, the handle-side channel plumbing, and the retry loop of
ClientHandle::request / send_request_with_retries.
-/

namespace UsersHttpClient

/-- HTTP status codes are modelled as natural numbers; hyper StatusCode Ok
corresponds to 200. -/
abbrev StatusCode := Nat

/-- Embedding of the ErrorMessage struct from src/http/client.rs: the
expected error-body shape decoded from non-success responses. -/
structure ErrorMessage where
  code : Nat
  message : String
deriving DecidableEq

/-- Embedding of the Error enum from src/http/client.rs. hyper Error values
(network-level failures) are modelled by their display string. -/
inductive Error where
  | Api : StatusCode → Option ErrorMessage → Error
  | Network : String → Error
  | Parse : String → Error
  | Unknown : String → Error
deriving DecidableEq

/-- ClientResult from src/http/client.rs, a Result of a String body or an
Error. -/
abbrev ClientResult := Except Error String

/-- Classifies an Error value as Network, mirroring the pattern match in the
or_else closure of send_request_with_retries. -/
def Error.isNetwork : Error → Bool
  | .Network _ => true
  | _ => false

/-- Holds exactly when a ClientResult is an Unknown-classified error. -/
def ClientResult.isUnknownError : ClientResult → Bool
  | .error (.Unknown _) => true
  | _ => false

/-- Outcome of one hyper round trip as seen by Client send_request: either the
connect or request itself fails with a hyper error (classified Network), or a
response arrives carrying a status code together with a body read that may
itself fail with a hyper error. -/
inductive TransportOutcome where
  | failed : String → TransportOutcome
  | response : StatusCode → Except String String → TransportOutcome

/-- Embedding of the outcome classification inside Client send_request
(src/http/client.rs lines 65 to 89): a request failure or a body-read failure
becomes Error.Network; a response with status hyper StatusCode Ok (exactly
200) yields the raw body as success; any other status yields
Error.Api status msg where msg is the attempted structured decode of the body,
passed in here as the decodeErrorMessage function (serde_json from_str
composed with ok, so a failed decode gives none). -/
def classify (decodeErrorMessage : String → Option ErrorMessage) :
    TransportOutcome → ClientResult
  | .failed e => .error (.Network e)
  | .response status bodyRead =>
    match bodyRead with
    | .error e => .error (.Network e)
    | .ok body =>
      if status = 200 then .ok body
      else .error (.Api status (decodeErrorMessage body))

/-- The data of a queued Payload from src/http/client.rs (the oneshot callback
is modelled separately, by whether its receiver is still alive). The method is
modelled by its name. -/
structure Payload where
  url : String
  method : String
  body : Option String

/-- Embedding of Client send_request (src/http/client.rs lines 50 to 89) up to
the value delivered to the callback. parseUri models url parsing into a hyper
Uri (none when parsing fails) and transport models the hyper round trip for the
parsed request. The Bool component records whether the hyper client was
invoked at all; the ClientResult component is the value the code sends to the
correlator callback. -/
def Client.send_request (parseUri : String → Option String)
    (transport : String → String → Option String → TransportOutcome)
    (decodeErrorMessage : String → Option ErrorMessage)
    (p : Payload) : Bool × ClientResult :=
  match parseUri p.url with
  | none => (false, .error (.Parse ("Cannot parse url `" ++ p.url ++ "`")))
  | some uri => (true, classify decodeErrorMessage (transport uri p.method p.body))

/-- Semantics of futures oneshot Sender send: the value is delivered when the
receiver is still alive, and comes back as an error when the receiver has
already been dropped. -/
def oneshotSend (receiverAlive : Bool) (v : ClientResult) : Except ClientResult Unit :=
  if receiverAlive then .ok () else .error v

/-- Embedding of the tail of the per-payload task built in Client send_request:
then callback send, then map and map_err both dropping their value. map_err
only replaces the error value by unit; it does not turn the error into a
success, so a failed callback send leaves the task in the error state. -/
def dispatchTask (receiverAlive : Bool) (result : ClientResult) : Except Unit Unit :=
  match oneshotSend receiverAlive result with
  | .ok _ => .ok ()
  | .error _ => .error ()

/-- Semantics of the dispatcher loop: Client stream wraps the queue receiver
with and_then over the per-payload task, and lib.rs line 94 consumes it with
for_each, which polls items in order and finishes at the first task that
resolves to an error. Returns the loop outcome and how many queued payloads
were processed. -/
def streamForEach : List (Except Unit Unit) → Except Unit Unit × Nat
  | [] => (.ok (), 0)
  | t :: rest =>
    match t with
    | .ok _ =>
      let r := streamForEach rest
      (r.1, r.2 + 1)
    | .error _ => (.error (), 1)

/-- The two channel-failure modes seen by ClientHandle send_request: the
bounded mpsc queue accepts the payload, or it is closed and the enqueue
fails. -/
inductive EnqueueOutcome where
  | closed
  | accepted

/-- What the awaited oneshot receiver produces: the sender was dropped without
resolving, or a ClientResult was delivered. -/
inductive OneshotOutcome where
  | dropped
  | resolved : ClientResult → OneshotOutcome

/-- Embedding of ClientHandle send_request (src/http/client.rs lines 140 to
170): a failed enqueue maps to Error.Unknown; on success the oneshot receiver
is awaited, a receiver error (sender dropped unresolved) maps to
Error.Unknown, and a delivered ClientResult is flattened by the final
and_then. The trailing map_err only logs and returns the same error. The
dynamic display of the underlying channel error is omitted from the message. -/
def ClientHandle.send_request (enq : EnqueueOutcome) (rx : OneshotOutcome) :
    ClientResult :=
  match enq with
  | .closed =>
    .error (.Unknown "Unexpected error sending http client request params to channel")
  | .accepted =>
    match rx with
    | .dropped =>
      .error (.Unknown "Unexpected error receiving http client response from channel")
    | .resolved result => result

/-- Embedding of ClientHandle send_request_with_retries (src/http/client.rs
lines 113 to 138). dispatch gives the outcome of the n-th dispatch attempt of
this logical request (one call to ClientHandle send_request) and k is the
index of the next attempt, so the source behaviour at attempt sequence
dispatch is obtained at k = 0. When retries is 0 the code returns last_err, or
a synthesized Unknown error when no error was recorded, without dispatching;
otherwise it dispatches once, retries on a Network error with the budget
decremented, and returns any other outcome as is. The Nat component
instruments how many dispatch attempts the call performs. -/
def send_request_with_retries (dispatch : Nat → ClientResult) (k : Nat)
    (last_err : Option Error) : Nat → ClientResult × Nat
  | 0 =>
    (.error (last_err.getD
      (.Unknown "Unexpected missing error in send_request_with_retries")), 0)
  | retries + 1 =>
    match dispatch k with
    | .ok response => (.ok response, 1)
    | .error (.Network d) =>
      let r := send_request_with_retries dispatch (k + 1) (some (.Network d)) retries
      (r.1, r.2 + 1)
    | .error e => (.error e, 1)

/-- Embedding of ClientHandle request (src/http/client.rs lines 101 to 111):
run send_request_with_retries with last_err none and the configured
max_retries, then deserialize the success body into the caller type T, mapping
a deserialization error to Error.Parse. deserialize models serde_json from_str
at T together with the display of its error. -/
def request {T : Type} (deserialize : String → Except String T)
    (dispatch : Nat → ClientResult) (max_retries : Nat) : Except Error T × Nat :=
  let r := send_request_with_retries dispatch 0 none max_retries
  match r.1 with
  | .ok response =>
    match deserialize response with
    | .ok t => (.ok t, r.2)
    | .error err => (.error (.Parse err), r.2)
  | .error e => (.error e, r.2)

/-- Helper: one unfolding step of the retry loop at a Network failure. -/
theorem swrr_step_network (dispatch : Nat → ClientResult) (k : Nat)
    (last : Option Error) (retries : Nat) (d : String)
    (h : dispatch k = .error (.Network d)) :
    send_request_with_retries dispatch k last (retries + 1)
      = ((send_request_with_retries dispatch (k + 1) (some (.Network d)) retries).1,
         (send_request_with_retries dispatch (k + 1) (some (.Network d)) retries).2 + 1) := by
  simp only [send_request_with_retries, h]

/-- Helper: when every attempt in the window of the budget fails with a
Network error and the budget is positive, the loop consumes the whole budget
and returns the Network error of the last attempt made. -/
theorem swrr_all_network_aux (dispatch : Nat → ClientResult) (d : Nat → String) :
    ∀ retries k last, 0 < retries →
      (∀ j, j < retries → dispatch (k + j) = .error (.Network (d (k + j)))) →
      send_request_with_retries dispatch k last retries
        = (.error (.Network (d (k + retries - 1))), retries) := by
  intro retries
  induction retries with
  | zero => intro k last h hd; omega
  | succ n ih =>
    intro k last h hd
    have h0 : dispatch k = .error (.Network (d k)) := by
      have := hd 0 (Nat.succ_pos n)
      simpa using this
    cases n with
    | zero =>
      simp [send_request_with_retries, h0]
    | succ m =>
      have hd' : ∀ j, j < m + 1 →
          dispatch (k + 1 + j) = .error (.Network (d (k + 1 + j))) := by
        intro j hj
        have := hd (j + 1) (by omega)
        have harith : k + (j + 1) = k + 1 + j := by omega
        rw [harith] at this
        exact this
      have hrec := ih (k + 1) (some (.Network (d k))) (Nat.succ_pos m) hd'
      have harith2 : k + 1 + (m + 1) - 1 = k + (m + 1 + 1) - 1 := by omega
      rw [swrr_step_network dispatch k last (m + 1) (d k) h0, hrec, harith2]

/-- Claim C1: evaluation of the code at the failing configuration. With
max_retries = 0, for every transport and every deserializer, ClientHandle
request performs zero dispatch attempts and returns the synthesized Unknown
error, instead of the one-attempt-verbatim behaviour the claim mandates. -/
theorem C1_zero_max_retries_no_attempt_unknown {T : Type}
    (deserialize : String → Except String T) (dispatch : Nat → ClientResult) :
    request deserialize dispatch 0
      = (.error (.Unknown "Unexpected missing error in send_request_with_retries"), 0) := rfl

/-- Claim C2 counterexample: with max_retries = 2 and a transport failing
every attempt with a Network error, the retry loop performs exactly 2 dispatch
attempts and not the 3 the claim states. -/
theorem C2_counterexample :
    send_request_with_retries
        (fun _ => .error (.Network "connection refused")) 0 none 2
      = (.error (.Network "connection refused"), 2) ∧ (2 : Nat) ≠ 3 := by
  refine ⟨?_, by decide⟩
  rfl

/-- Claim C2 (amended): with max_retries = 2 and a transport failing every
attempt with a Network error, a single logical request performs exactly 2
total dispatch attempts and then returns the Network error, not Unknown. -/
theorem C2_two_attempts_then_network (e : String) :
    send_request_with_retries (fun _ => .error (.Network e)) 0 none 2
      = (.error (.Network e), 2) := by
  simpa using swrr_all_network_aux (fun _ => .error (.Network e)) (fun _ => e)
    2 0 none (by omega) (fun j hj => rfl)

/-- Claim C3 counterexample: status 201 is a 2xx status, yet the dispatcher
classifies it as an Api error and not as success, because the source compares
the status with hyper StatusCode Ok, which is exactly 200. -/
theorem C3_counterexample :
    classify (fun _ => none) (.response 201 (.ok "hello"))
      = .error (.Api 201 none) ∧ 200 ≤ 201 ∧ 201 < 300 :=
  ⟨rfl, by decide, by decide⟩

/-- Claim C3 (amended): when the transport completes a round trip and the body
is read, exactly status 200 yields success carrying the raw response body, and
every other status yields an Api error carrying the status and the optional
decoded message, whatever the decoder returns on the body (so a decode failure
leaves the class at Api with the message unset). -/
theorem C3_status_classification
    (decodeErrorMessage : String → Option ErrorMessage)
    (status : Nat) (body : String) :
    classify decodeErrorMessage (.response status (.ok body))
      = (if status = 200 then .ok body
         else .error (.Api status (decodeErrorMessage body))) := rfl

/-- Claim C4: a dispatch attempt that resolves to an error not classified as
Network (Api, Parse, or Unknown) is returned to the caller verbatim with
exactly that one attempt and no further dispatch, for every positive remaining
budget and every recorded last error. -/
theorem C4_non_network_returned_immediately (dispatch : Nat → ClientResult)
    (k retries : Nat) (last : Option Error) (e : Error)
    (hpos : 0 < retries) (hnn : e.isNetwork = false)
    (hd : dispatch k = .error e) :
    send_request_with_retries dispatch k last retries = (.error e, 1) := by
  cases retries with
  | zero => omega
  | succ n =>
    cases e with
    | Network d => simp [Error.isNetwork] at hnn
    | Api s m => simp [send_request_with_retries, hd]
    | Parse s => simp [send_request_with_retries, hd]
    | Unknown s => simp [send_request_with_retries, hd]

/-- Witness for C4 at a concrete input: a 404 Api error on the first attempt
with max_retries = 5 is returned after exactly one attempt. -/
theorem C4_witness :
    send_request_with_retries (fun _ => .error (.Api 404 none)) 0 none 5
      = (.error (.Api 404 none), 1) :=
  C4_non_network_returned_immediately (fun _ => .error (.Api 404 none))
    0 5 none (.Api 404 none) (by decide) (by decide) rfl

/-- Claim C5: when the retry budget maxr is positive and every attempt in the
budget window fails with a Network error, the exhausted loop returns the last
observed Network error, the one of attempt number maxr, and never substitutes
an Unknown error. -/
theorem C5_exhaustion_returns_last_network (dispatch : Nat → ClientResult)
    (d : Nat → String) (maxr : Nat) (hpos : 0 < maxr)
    (hd : ∀ j, j < maxr → dispatch j = .error (.Network (d j))) :
    send_request_with_retries dispatch 0 none maxr
      = (.error (.Network (d (maxr - 1))), maxr) := by
  have := swrr_all_network_aux dispatch d maxr 0 none hpos
    (fun j hj => by simpa using hd j hj)
  simpa using this

/-- Witness for C5 at a concrete input: one attempt budget, every attempt a
Network timeout, the timeout itself is returned. -/
theorem C5_witness :
    send_request_with_retries (fun _ => .error (.Network "timeout")) 0 none 1
      = (.error (.Network "timeout"), 1) :=
  C5_exhaustion_returns_last_network (fun _ => .error (.Network "timeout"))
    (fun _ => "timeout") 1 (by decide) (fun j hj => rfl)

/-- Claim C6: deserialization runs only on the terminal success of the retry
loop, and a deserialization failure becomes a Parse error while the number of
dispatch attempts stays exactly what the retry loop performed, for every
configured max_retries. -/
theorem C6_parse_failure_never_retried {T : Type}
    (deserialize : String → Except String T)
    (dispatch : Nat → ClientResult) (maxr n : Nat) (body s : String)
    (hs : send_request_with_retries dispatch 0 none maxr = (.ok body, n))
    (hdes : deserialize body = .error s) :
    request deserialize dispatch maxr = (.error (.Parse s), n) := by
  simp [request, hs, hdes]

/-- Witness for C6 at a concrete input: the first attempt succeeds with body
that the deserializer rejects; the result is a Parse error after that one
attempt. -/
theorem C6_witness :
    request (T := Nat) (fun _ => .error "invalid type")
        (fun _ => .ok "not json") 1
      = (.error (.Parse "invalid type"), 1) :=
  C6_parse_failure_never_retried (T := Nat) (fun _ => .error "invalid type")
    (fun _ => .ok "not json") 1 1 "not json" "invalid type" rfl rfl

/-- Claim C7: a failed enqueue (queue closed), and a oneshot sender dropped
without resolving, each resolve the pending dispatch of the caller to an
Unknown-classified error rather than any other class. -/
theorem C7_closed_channels_resolve_unknown (rx : OneshotOutcome) :
    ClientResult.isUnknownError (ClientHandle.send_request .closed rx) = true ∧
    ClientResult.isUnknownError (ClientHandle.send_request .accepted .dropped) = true :=
  ⟨rfl, rfl⟩

/-- Claim C8: the retry loop is a total function of the budget (it is defined
by structural recursion on retries, so every run terminates with exactly one
terminal ClientResult), and the number of dispatch attempts it performs is
bounded by the budget, for every transport and recursion state. -/
theorem C8_attempts_bounded (dispatch : Nat → ClientResult) :
    ∀ retries k last,
      (send_request_with_retries dispatch k last retries).2 ≤ retries := by
  intro retries
  induction retries with
  | zero => intro k last; simp [send_request_with_retries]
  | succ n ih =>
    intro k last
    cases hdk : dispatch k with
    | ok r => simp [send_request_with_retries, hdk]
    | error e =>
      cases e with
      | Network d =>
        have := ih (k + 1) (some (.Network d))
        rw [swrr_step_network dispatch k last n d hdk]
        simpa using Nat.succ_le_succ this
      | Api s m => simp [send_request_with_retries, hdk]
      | Parse s => simp [send_request_with_retries, hdk]
      | Unknown s => simp [send_request_with_retries, hdk]

/-- Claim C9: evaluation of the code at the failing input. When the oneshot
receiver of a payload has been dropped, the callback send fails and the
per-payload task resolves to an error instead of completing cleanly, and the
for_each driven dispatcher loop then stops after that payload without
processing the next queued one. -/
theorem C9_dropped_receiver_stops_dispatcher :
    dispatchTask false (.ok "body") = .error () ∧
    streamForEach
        [dispatchTask false (.ok "body"), dispatchTask true (.ok "next")]
      = (.error (), 1) :=
  ⟨rfl, rfl⟩

/-- Claim C10: a payload whose url fails to parse causes no transport
invocation at all, and its correlator is resolved with a Parse-classified
error built from the url, so the future of the caller still resolves. -/
theorem C10_unparsable_url_resolves_parse (parseUri : String → Option String)
    (transport : String → String → Option String → TransportOutcome)
    (decodeErrorMessage : String → Option ErrorMessage) (p : Payload)
    (h : parseUri p.url = none) :
    Client.send_request parseUri transport decodeErrorMessage p
      = (false, .error (.Parse ("Cannot parse url `" ++ p.url ++ "`"))) := by
  simp [Client.send_request, h]

/-- Witness for C10 at a concrete input: a parser rejecting every url yields
no transport invocation and the Parse error naming the url. -/
theorem C10_witness :
    Client.send_request (fun _ => none) (fun _ _ _ => .failed "unused")
        (fun _ => none) ⟨"not a url", "GET", none⟩
      = (false, .error (.Parse "Cannot parse url `not a url`")) :=
  C10_unparsable_url_resolves_parse (fun _ => none)
    (fun _ _ _ => .failed "unused") (fun _ => none)
    ⟨"not a url", "GET", none⟩ rfl

end UsersHttpClient
